import Mathlib

/-!
Shallow embedding of the short-link resolution and analytics recording
subsystem of the url-shortner repository.

The definitions below are translated from the JavaScript sources:
* src/server/routes/redirect.js  (resolution, password verification,
  visitor fingerprinting, analytics tracking),
* src/server/models/Url.js       (link schema, isExpired, shortUrl),
* src/server/models/Analytics.js (visit-event schema and its unique
  compound index on (urlId, visitorId)),
* src/server/routes/urls.js      (create and update of links),
* src/server/routes/analytics.js (time-series bucketing).

Conventions: MongoDB documents become Lean structures; the database is a
pair of lists; instants are naturals (milliseconds since the epoch, as
returned by Date.now); JavaScript `undefined`/missing values are `none`;
a `create` against a collection with a violated unique index is modelled
as `Except.error`, matching the rejected promise MongoDB produces.
-/

/-! JavaScript value helpers -/

/-- Truthiness of an optional JS string: `undefined` and the empty string
are falsy, every other string is truthy. -/
def jsTruthy : Option String → Bool
  | none => false
  | some s => !s.isEmpty

/-- JS string interpolation of a possibly-undefined value: template
literals render `undefined` as the text "undefined". -/
def jsStr : Option String → String
  | none => "undefined"
  | some s => s

/-- The JS `a || b` operator on optional strings (short-circuits on a
truthy left operand, otherwise yields the right operand unchanged). -/
def jsOrStr (a b : Option String) : Option String :=
  if jsTruthy a then a else b

/-- Wrap an integer into the signed 32-bit range, as the JS `|`, `&` and
`<<` operators do via ToInt32. -/
def toInt32 (x : Int) : Int :=
  (x + 2 ^ 31) % 2 ^ 32 - 2 ^ 31

/-! Fingerprint engine (generateVisitorId, redirect.js lines 126-140) -/

/-- One loop iteration of the hash in generateVisitorId:
`hash = ((hash << 5) - hash) + char; hash = hash & hash`. -/
def hashStep (h : Int) (c : Nat) : Int :=
  toInt32 (toInt32 (h * 32) - h + c)

/-- The whole loop of generateVisitorId over the combined string
(charCodeAt on the successive characters, accumulator starts at 0). -/
def hashString (s : String) : Int :=
  s.data.foldl (fun h c => hashStep h c.toNat) 0

/-- A base-36 digit as produced by Number.prototype.toString(36):
0-9 then lowercase a-z. -/
def base36Digit (n : Nat) : Char :=
  if n < 10 then Char.ofNat (48 + n) else Char.ofNat (87 + n)

/-- Digit list of Number.prototype.toString(36) on a non-negative
integer, written with an explicit fuel argument so the recursion is
structural (n + 1 always exceeds the number of base-36 digits of n,
since the argument shrinks by a factor of 36 every step). -/
def natToBase36Aux : Nat → Nat → List Char
  | 0, _ => []
  | fuel + 1, n =>
    if n < 36 then [base36Digit n]
    else natToBase36Aux fuel (n / 36) ++ [base36Digit (n % 36)]

/-- Number.prototype.toString(36) on a non-negative integer. -/
def natToBase36 (n : Nat) : String :=
  String.mk (natToBase36Aux (n + 1) n)

/-- generateVisitorId (redirect.js): the simple fingerprint hash of
`req.ip || req.connection.remoteAddress`, the User-Agent header and the
Accept-Language header.  The two address sources are the JS `||` chain;
the headers default to the empty string via `|| ''`; an address that is
absent from both sources interpolates as "undefined". -/
def generateVisitorId (reqIp connRemote userAgent acceptLanguage : Option String) : String :=
  let ip := jsOrStr reqIp connRemote
  let ua := userAgent.getD ""
  let al := acceptLanguage.getD ""
  let combined := jsStr ip ++ "-" ++ ua ++ "-" ++ al
  natToBase36 (hashString combined).natAbs

/-! Data model (Url.js, Analytics.js) -/

/-- A document of the Url collection (models/Url.js). -/
structure Url where
  id : Nat
  originalUrl : String
  shortId : String
  customAlias : Option String
  userId : Option Nat
  isPasswordProtected : Bool
  password : Option String
  expiresAt : Option Nat
  isActive : Bool
  clicks : Nat
  uniqueVisitors : Nat
  lastAccessed : Option Nat
deriving DecidableEq, Repr

/-- urlSchema.methods.isExpired: no expiry means never expired, otherwise
compare the current instant strictly against expiresAt
(`new Date() > this.expiresAt`). -/
def Url.isExpired (u : Url) (now : Nat) : Bool :=
  match u.expiresAt with
  | none => false
  | some e => decide (e < now)

/-- The shortUrl virtual: `this.customAlias || this.shortId`. -/
def Url.shortUrl (u : Url) : String :=
  if jsTruthy u.customAlias then jsStr u.customAlias else u.shortId

/-- A document of the Analytics collection (models/Analytics.js); the
fields no claim touches (parsed browser/os/device labels, geo lookup)
are values of excluded external collaborators and are omitted. -/
structure AnalyticsEvent where
  urlId : Nat
  visitorId : String
  ipAddress : String
  userAgent : String
  referrer : Option String
  timestamp : Nat
  isUnique : Bool
deriving DecidableEq, Repr

/-- The persistent state the routes operate on: the two collections. -/
structure DB where
  urls : List Url
  analytics : List AnalyticsEvent
deriving DecidableEq, Repr

/-! Resolution service (redirect.js) -/

/-- Outcome of GET /:shortId. -/
inductive ResolveOutcome where
  | notFound
  | expired
  | passwordRequired (handle : String)
  | passwordIncorrect
  | redirect (originalUrl : String)
deriving DecidableEq, Repr

/-- The lookup shared by both redirect routes:
`Url.findOne({ $or: [{ shortId }, { customAlias: shortId }], isActive: true })`. -/
def findActiveByHandle (db : DB) (shortId : String) : Option Url :=
  db.urls.find? (fun u => (u.shortId == shortId || u.customAlias == some shortId) && u.isActive)

/-- Analytics.create against the collection: the compound index
`analyticsSchema.index({ urlId: 1, visitorId: 1 }, { unique: true })`
makes the insert reject with a duplicate-key error whenever a document
with the same (urlId, visitorId) pair already exists. -/
def analyticsCreate (events : List AnalyticsEvent) (ev : AnalyticsEvent) :
    Except Unit (List AnalyticsEvent) :=
  if events.any (fun a => a.urlId == ev.urlId && a.visitorId == ev.visitorId) then
    Except.error ()
  else
    Except.ok (events ++ [ev])

/-- `$inc: { uniqueVisitors: 1 }` on the link with the given id. -/
def incUniqueVisitors (db : DB) (urlId : Nat) : DB :=
  { db with
    urls := db.urls.map (fun u =>
      if u.id == urlId then { u with uniqueVisitors := u.uniqueVisitors + 1 } else u) }

/-- trackAnalytics (redirect.js lines 143-208): findOne for a prior event
of the (urlId, visitorId) pair, build the event with
`isUnique: !existingVisit`, Analytics.create it, and increment the
link's uniqueVisitors when no prior event was seen.  The whole body sits
in a try/catch that swallows any error, so a duplicate-key rejection of
the create leaves the state untouched and skips the increment. -/
def trackAnalytics (db : DB) (urlId : Nat) (visitorId : String) (now : Nat)
    (ip ua : String) (referrer : Option String) : DB :=
  let existingVisit := db.analytics.find? (fun a => a.urlId == urlId && a.visitorId == visitorId)
  let ev : AnalyticsEvent :=
    { urlId := urlId, visitorId := visitorId, ipAddress := ip, userAgent := ua,
      referrer := referrer, timestamp := now, isUnique := existingVisit.isNone }
  match analyticsCreate db.analytics ev with
  | Except.error _ => db
  | Except.ok evs =>
    let db1 : DB := { db with analytics := evs }
    if existingVisit.isNone then incUniqueVisitors db1 urlId else db1

/-- `Url.findByIdAndUpdate(url._id, { $inc: { clicks: 1 }, lastAccessed: new Date() })`. -/
def updateUrlStats (db : DB) (urlId : Nat) (now : Nat) : DB :=
  { db with
    urls := db.urls.map (fun u =>
      if u.id == urlId then { u with clicks := u.clicks + 1, lastAccessed := some now } else u) }

/-- GET /:shortId (redirect.js lines 13-67): lookup scoped to active
links, then the expiry gate, then the password gate (absent password and
wrong password are distinct outcomes; the required response carries
url.shortUrl), then fingerprint, analytics tracking, stats update and
the redirect to originalUrl. -/
def resolve (db : DB) (shortId : String) (password : Option String) (now : Nat)
    (reqIp connRemote userAgent acceptLanguage referrer : Option String) :
    ResolveOutcome × DB :=
  match findActiveByHandle db shortId with
  | none => (ResolveOutcome.notFound, db)
  | some url =>
    if url.isExpired now then (ResolveOutcome.expired, db)
    else if url.isPasswordProtected && !jsTruthy password then
      (ResolveOutcome.passwordRequired url.shortUrl, db)
    else if url.isPasswordProtected && password != url.password then
      (ResolveOutcome.passwordIncorrect, db)
    else
      let visitorId := generateVisitorId reqIp connRemote userAgent acceptLanguage
      let db1 := trackAnalytics db url.id visitorId now
        (jsStr (jsOrStr reqIp connRemote)) (userAgent.getD "") referrer
      let db2 := updateUrlStats db1 url.id now
      (ResolveOutcome.redirect url.originalUrl, db2)

/-- Outcome of POST /:shortId/verify-password. -/
inductive VerifyOutcome where
  | passwordMissing
  | notFound
  | expired
  | notProtected
  | passwordIncorrect
  | success (originalUrl : String)
deriving DecidableEq, Repr

/-- POST /:shortId/verify-password (redirect.js lines 70-122): missing
body password is rejected first, then the same active lookup, expiry
gate and password comparison; success tracks analytics, updates stats
and returns the destination without redirecting. -/
def verifyPassword (db : DB) (shortId : String) (password : Option String) (now : Nat)
    (reqIp connRemote userAgent acceptLanguage referrer : Option String) :
    VerifyOutcome × DB :=
  if !jsTruthy password then (VerifyOutcome.passwordMissing, db)
  else
    match findActiveByHandle db shortId with
    | none => (VerifyOutcome.notFound, db)
    | some url =>
      if url.isExpired now then (VerifyOutcome.expired, db)
      else if !url.isPasswordProtected then (VerifyOutcome.notProtected, db)
      else if password != url.password then (VerifyOutcome.passwordIncorrect, db)
      else
        let visitorId := generateVisitorId reqIp connRemote userAgent acceptLanguage
        let db1 := trackAnalytics db url.id visitorId now
          (jsStr (jsOrStr reqIp connRemote)) (userAgent.getD "") referrer
        let db2 := updateUrlStats db1 url.id now
        (VerifyOutcome.success url.originalUrl, db2)

/-! Link registry: create and update (urls.js) -/

/-- The customAlias validator regex of both routes and the schema:
one or more of letters, digits, hyphen, underscore. -/
def isValidAlias (s : String) : Bool :=
  !s.isEmpty && s.data.all (fun c => c.isAlphanum || c == '-' || c == '_')

/-- Outcome of POST /api/urls. -/
inductive CreateOutcome where
  | validationError
  | aliasTaken
  | passwordRequired
  | serverError
  | created (url : Url)
deriving DecidableEq, Repr

/-- The express-validator chain of POST /api/urls over its optional
fields; the isURL check on originalUrl is an external collaborator and
its verdict is passed in as `urlValid`. -/
def createValidationOk (urlValid : Bool) (customAlias : Option String)
    (password : Option String) : Bool :=
  urlValid
    && (match customAlias with | none => true | some a => isValidAlias a)
    && (match password with | none => true | some p => !p.isEmpty)

/-- The alias pre-check of both routes: run only for a truthy alias,
`Url.findOne({ $or: [{ customAlias }, { shortId: customAlias }] })`
against every stored link. -/
def aliasCollides (db : DB) (customAlias : Option String) : Bool :=
  if jsTruthy customAlias then
    db.urls.any (fun u => u.customAlias == customAlias || some u.shortId == customAlias)
  else false

/-- POST /api/urls (urls.js lines 13-84): validation, the alias
collision check, the password-protection guard, then `new Url(...)` and
`url.save()`.  The document stores the password only when protection is
requested (`password: isPasswordProtected ? password : undefined`); the
save rejects when the generated shortId violates its unique index. -/
def createUrl (db : DB) (urlValid : Bool) (originalUrl : String)
    (customAlias : Option String) (expiresAt : Option Nat)
    (isPasswordProtected : Option Bool) (password : Option String)
    (userId : Option Nat) (genShortId : String) (newId : Nat) : CreateOutcome × DB :=
  if !createValidationOk urlValid customAlias password then
    (CreateOutcome.validationError, db)
  else if aliasCollides db customAlias then (CreateOutcome.aliasTaken, db)
  else if isPasswordProtected == some true && !jsTruthy password then
    (CreateOutcome.passwordRequired, db)
  else
    let isProt := isPasswordProtected == some true
    let newUrl : Url :=
      { id := newId, originalUrl := originalUrl, shortId := genShortId,
        customAlias := customAlias, userId := userId,
        isPasswordProtected := isProt,
        password := if isProt then password else none,
        expiresAt := expiresAt, isActive := true, clicks := 0,
        uniqueVisitors := 0, lastAccessed := none }
    if db.urls.any (fun u => u.shortId == genShortId) then (CreateOutcome.serverError, db)
    else (CreateOutcome.created newUrl, { db with urls := db.urls ++ [newUrl] })

/-- Outcome of PUT /api/urls/:id. -/
inductive UpdateOutcome where
  | validationError
  | notFound
  | aliasTaken
  | passwordRequired
  | updated (url : Url)
deriving DecidableEq, Repr

/-- The express-validator chain of PUT /api/urls/:id (same optional
checks as create; `origValid` is the external isURL verdict on a
supplied originalUrl). -/
def updateValidationOk (origValid : Bool) (customAlias : Option String)
    (password : Option String) : Bool :=
  origValid
    && (match customAlias with | none => true | some a => isValidAlias a)
    && (match password with | none => true | some p => !p.isEmpty)

/-- The `updateFields` assembly of PUT /api/urls/:id applied to the
stored document: originalUrl only when truthy, customAlias /
isPasswordProtected / password whenever the field was present in the
body, expiresAt to the parsed date when present.  No field is ever
cleared as a consequence of another field's new value. -/
def applyUpdateFields (u : Url) (originalUrl customAlias : Option String)
    (expiresAt : Option Nat) (isPasswordProtected : Option Bool)
    (password : Option String) : Url :=
  { u with
    originalUrl := if jsTruthy originalUrl then jsStr originalUrl else u.originalUrl,
    customAlias := match customAlias with | some a => some a | none => u.customAlias,
    expiresAt := match expiresAt with | some t => some t | none => u.expiresAt,
    isPasswordProtected := isPasswordProtected.getD u.isPasswordProtected,
    password := match password with | some p => some p | none => u.password }

/-- PUT /api/urls/:id (urls.js lines 160-232): validation, owner-scoped
lookup, the alias collision check excluding the record itself, the
password-protection guard, then findByIdAndUpdate with the assembled
updateFields. -/
def updateUrl (db : DB) (origValid : Bool) (reqUserId id : Nat)
    (originalUrl customAlias : Option String) (expiresAt : Option Nat)
    (isPasswordProtected : Option Bool) (password : Option String) :
    UpdateOutcome × DB :=
  if !updateValidationOk origValid customAlias password then
    (UpdateOutcome.validationError, db)
  else
    match db.urls.find? (fun u => u.id == id && u.userId == some reqUserId) with
    | none => (UpdateOutcome.notFound, db)
    | some existingUrl =>
      let aliasTaken :=
        if jsTruthy customAlias && customAlias != existingUrl.customAlias then
          db.urls.any (fun u =>
            (u.customAlias == customAlias || some u.shortId == customAlias) && u.id != id)
        else false
      if aliasTaken then (UpdateOutcome.aliasTaken, db)
      else if isPasswordProtected == some true && !jsTruthy password then
        (UpdateOutcome.passwordRequired, db)
      else
        let updated := applyUpdateFields existingUrl originalUrl customAlias expiresAt
          isPasswordProtected password
        (UpdateOutcome.updated updated,
         { db with urls := db.urls.map (fun u => if u.id == id then updated else u) })

/-! Analytics aggregator: time series (analytics.js) -/

/-- Milliseconds per calendar day; the model treats days as uniform
86400000 ms slices of the epoch timeline, which is what moment's
startOf/endOf/add('day') compute in a fixed-offset setting. -/
def oneDay : Nat := 86400000

/-- The calendar day of an instant (stands for the YYYY-MM-DD label). -/
def dayOf (t : Nat) : Nat := t / oneDay

/-- One element of the time-series array produced by
processTimeSeriesData. -/
structure Bucket where
  date : Nat
  clicks : Nat
  uniqueVisitors : Nat
deriving DecidableEq, Repr

/-- The loop body of processTimeSeriesData at instant `current`:
startOf('day'), endOf('day') (the last millisecond of the day), the
inclusive isBetween filter, and the two counts. -/
def dayBucket (analytics : List AnalyticsEvent) (current : Nat) : Bucket :=
  let dayStart := current / oneDay * oneDay
  let dayEnd := dayStart + (oneDay - 1)
  let dayAnalytics := analytics.filter
    (fun a => decide (dayStart ≤ a.timestamp) && decide (a.timestamp ≤ dayEnd))
  { date := dayOf current, clicks := dayAnalytics.length,
    uniqueVisitors := (dayAnalytics.filter (fun a => a.isUnique)).length }

/-- The while loop of processTimeSeriesData (analytics.js lines
185-207): starting from startDate, emit the bucket of the current
instant's calendar day and advance by one day while
`current.isSameOrBefore(endDate)`. -/
def tsLoop (analytics : List AnalyticsEvent) (endDate current : Nat) : List Bucket :=
  if current ≤ endDate then
    dayBucket analytics current :: tsLoop analytics endDate (current + oneDay)
  else []
termination_by endDate + 1 - current
decreasing_by simp [oneDay]; omega

/-- processTimeSeriesData(analytics, startDate, endDate, period). -/
def processTimeSeriesData (analytics : List AnalyticsEvent) (startDate endDate : Nat) :
    List Bucket :=
  tsLoop analytics endDate startDate

/-- The Mongo fetch feeding processTimeSeriesData:
`Analytics.find({ urlId, timestamp: { $gte: startDate, $lte: endDate } })`. -/
def windowEvents (db : DB) (urlId : Nat) (startDate endDate : Nat) : List AnalyticsEvent :=
  db.analytics.filter
    (fun a => a.urlId == urlId && decide (startDate ≤ a.timestamp)
      && decide (a.timestamp ≤ endDate))

/-! Concurrency model of trackAnalytics for a fixed (urlId, visitorId)

Many request handlers run trackAnalytics against shared storage.  Each
storage round trip is atomic; between round trips a handler can be
interleaved with any other.  For one fixed (urlId, visitorId) pair the
relevant shared state is the list of persisted events of that pair
(their isUnique flags) and the link's uniqueVisitors counter; a handler
performs, in order,
  1. the findOne for a prior event of the pair,
  2. the Analytics.create, which appends an event flagged with the
     findOne snapshot but rejects (duplicate key, swallowed by the
     catch, which also aborts the rest of the handler) whenever an event
     of the pair is already stored,
  3. when the snapshot was empty, the $inc of uniqueVisitors. -/

/-- The control state of one handler running trackAnalytics. -/
inductive PC where
  | start
  | checked (found : Bool)
  | toInc
  | done
deriving DecidableEq, Repr

/-- Shared state plus the control state of every concurrent handler. -/
structure VState where
  events : List Bool
  uniq : Nat
  procs : List PC
deriving DecidableEq, Repr

/-- One atomic storage round trip of one handler, interleaved
arbitrarily with the other handlers. -/
inductive VisitStep : VState → VState → Prop
  | findOne (evs : List Bool) (uq : Nat) (l r : List PC) :
      VisitStep ⟨evs, uq, l ++ PC.start :: r⟩
                ⟨evs, uq, l ++ PC.checked (!evs.isEmpty) :: r⟩
  | createDup (evs : List Bool) (uq : Nat) (l r : List PC) (found : Bool)
      (h : evs ≠ []) :
      VisitStep ⟨evs, uq, l ++ PC.checked found :: r⟩
                ⟨evs, uq, l ++ PC.done :: r⟩
  | createOk (uq : Nat) (l r : List PC) (found : Bool) :
      VisitStep ⟨[], uq, l ++ PC.checked found :: r⟩
                ⟨[!found], uq, l ++ (if found then PC.done else PC.toInc) :: r⟩
  | incr (evs : List Bool) (uq : Nat) (l r : List PC) :
      VisitStep ⟨evs, uq, l ++ PC.toInc :: r⟩
                ⟨evs, uq + 1, l ++ PC.done :: r⟩

/-- Recognizer for the pending-increment control state. -/
def isToInc : PC → Bool
  | PC.toInc => true
  | _ => false

/-- Handlers that have decided to increment but not yet done so. -/
def countToInc (ps : List PC) : Nat :=
  ps.countP isToInc

/-- Inductive invariant of the interleaved execution: every stored event
of the pair is flagged unique, at most one is ever stored, the counter
plus the pending increments equals the number of stored events, and
while nothing is stored every handler is still before its create. -/
def VInv (s : VState) : Prop :=
  (∀ b ∈ s.events, b = true) ∧
  s.events.length ≤ 1 ∧
  s.uniq + countToInc s.procs = s.events.length ∧
  (s.events = [] → ∀ p ∈ s.procs, p = PC.start ∨ p = PC.checked false)

theorem vinv_step {s s' : VState} (hs : VInv s) (h : VisitStep s s') : VInv s' := by
  obtain ⟨h1, h2, h3, h5⟩ := hs
  cases h with
  | findOne evs uq l r =>
    refine ⟨h1, h2, ?_, ?_⟩
    · simp only [countToInc, List.countP_append, List.countP_cons, isToInc] at h3 ⊢
      simpa using h3
    · intro he p hp
      rcases List.mem_append.mp hp with hl | hr
      · exact h5 he p (List.mem_append.mpr (Or.inl hl))
      · rcases List.mem_cons.mp hr with rfl | hr'
        · subst he; simp
        · exact h5 he p (List.mem_append.mpr (Or.inr (List.mem_cons.mpr (Or.inr hr'))))
  | createDup evs uq l r found hne =>
    refine ⟨h1, h2, ?_, fun he => absurd he hne⟩
    simp only [countToInc, List.countP_append, List.countP_cons, isToInc] at h3 ⊢
    simpa using h3
  | createOk uq l r found =>
    have hfound : found = false := by
      rcases h5 rfl (PC.checked found)
          (List.mem_append.mpr (Or.inr (List.mem_cons.mpr (Or.inl rfl)))) with h' | h'
      · cases h'
      · cases h'; rfl
    subst hfound
    refine ⟨by simp, by simp, ?_, by intro he; simp at he⟩
    have h3' : uq + (List.countP isToInc l + List.countP isToInc r) = 0 := by
      simpa [countToInc, List.countP_append, List.countP_cons, isToInc] using h3
    show uq + countToInc (l ++ (if false then PC.done else PC.toInc) :: r) = List.length [!false]
    simp [countToInc, List.countP_append, List.countP_cons, isToInc]
    omega
  | incr evs uq l r =>
    refine ⟨h1, h2, ?_, ?_⟩
    · simp only [countToInc, List.countP_append, List.countP_cons, isToInc] at h3 ⊢
      simp at h3 ⊢
      omega
    · intro he
      exfalso
      rw [he] at h3
      simp only [countToInc, List.countP_append, List.countP_cons, isToInc] at h3
      simp at h3

theorem vinv_trace {s₀ s : VState} (h : Relation.ReflTransGen VisitStep s₀ s)
    (h0 : VInv s₀) : VInv s := by
  induction h with
  | refl => exact h0
  | tail _ hstep ih => exact vinv_step ih hstep

theorem vstep_procs_length {s s' : VState} (h : VisitStep s s') :
    s'.procs.length = s.procs.length := by
  cases h <;> simp

theorem vtrace_procs_length {s₀ s : VState} (h : Relation.ReflTransGen VisitStep s₀ s) :
    s.procs.length = s₀.procs.length := by
  induction h with
  | refl => rfl
  | tail _ hstep ih => rw [vstep_procs_length hstep, ih]

/-! Concrete fixtures used by the claim theorems -/

/-- A plain active link with no gates. -/
def linkPlain : Url :=
  { id := 1, originalUrl := "https://example.com/a", shortId := "abc", customAlias := none,
    userId := some 7, isPasswordProtected := false, password := none, expiresAt := none,
    isActive := true, clicks := 0, uniqueVisitors := 0, lastAccessed := none }

def dbPlain : DB := { urls := [linkPlain], analytics := [] }

def dbEmpty : DB := { urls := [], analytics := [] }

/-- An expired link that is still active. -/
def linkExpiredActive : Url :=
  { id := 3, originalUrl := "https://example.com/e", shortId := "expa", customAlias := none,
    userId := none, isPasswordProtected := false, password := none, expiresAt := some 50,
    isActive := true, clicks := 0, uniqueVisitors := 0, lastAccessed := none }

def dbExpiredActive : DB := { urls := [linkExpiredActive], analytics := [] }

/-- An expired link that has been deactivated. -/
def linkExpiredInactive : Url :=
  { id := 2, originalUrl := "https://example.com/b", shortId := "exp", customAlias := none,
    userId := none, isPasswordProtected := false, password := none, expiresAt := some 50,
    isActive := false, clicks := 0, uniqueVisitors := 0, lastAccessed := none }

def dbExpiredInactive : DB := { urls := [linkExpiredInactive], analytics := [] }

/-- A password-protected active link. -/
def linkProt : Url :=
  { id := 4, originalUrl := "https://example.com/p", shortId := "prot", customAlias := none,
    userId := none, isPasswordProtected := true, password := some "pw", expiresAt := none,
    isActive := true, clicks := 0, uniqueVisitors := 0, lastAccessed := none }

def dbProt : DB := { urls := [linkProt], analytics := [] }

/-- A password-protected link owned by user 7, for the update route. -/
def linkProtOwned : Url :=
  { id := 5, originalUrl := "https://example.com/q", shortId := "own", customAlias := none,
    userId := some 7, isPasswordProtected := true, password := some "pw", expiresAt := none,
    isActive := true, clicks := 0, uniqueVisitors := 0, lastAccessed := none }

def dbProtOwned : DB := { urls := [linkProtOwned], analytics := [] }

/-- The state after one visit to linkPlain from a fixed set of request
attributes. -/
def dbAfterFirstVisit : DB :=
  (resolve dbPlain "abc" none 5 (some "1.2.3.4") none (some "UA") (some "en") none).2

/-- A second visit to linkPlain from the same request attributes. -/
def secondVisit : ResolveOutcome × DB :=
  resolve dbAfterFirstVisit "abc" none 6 (some "1.2.3.4") none (some "UA") (some "en") none

/-! Claim theorems -/

set_option maxRecDepth 100000 in
/-- Claim C1, code_bug evidence. The claim says a successful repeat
resolution appends its own VisitEvent with isUniqueForLink = false and
all events are retained.  On the code, the unique compound index on
(urlId, visitorId) makes the second Analytics.create reject with a
duplicate-key error, which trackAnalytics swallows: the second
resolution succeeds (all gates passed) yet the analytics collection
still holds exactly one event afterwards. -/
theorem second_visit_event_dropped :
    secondVisit.1 = ResolveOutcome.redirect "https://example.com/a" ∧
    secondVisit.2.analytics.length = 1 := by decide

set_option maxRecDepth 100000 in
/-- Claim C3, code_bug evidence. Two sequential resolutions of linkPlain
from identical request attributes: clickCount reaches 2 and
uniqueVisitorCount reaches 1 as the claim says, and the first persisted
event has isUniqueForLink = true, but no second event exists (the claim
requires a second persisted event with isUniqueForLink = false). -/
theorem two_identical_visits_final_state :
    secondVisit.2.analytics.map AnalyticsEvent.isUnique = [true] ∧
    secondVisit.2.urls.map Url.clicks = [2] ∧
    secondVisit.2.urls.map Url.uniqueVisitors = [1] := by decide

/-- Claim C2, counterexample. A link whose expiresAt is past and whose
active flag is false resolves to NotFound, not Expired: the lookup is
scoped to isActive = true, so the expiry gate is never reached. -/
theorem inactive_expired_resolves_notFound :
    linkExpiredInactive.isExpired 100 = true ∧
    linkExpiredInactive.isActive = false ∧
    (resolve dbExpiredInactive "exp" none 100 none none none none none).1
      = ResolveOutcome.notFound ∧
    (resolve dbExpiredInactive "exp" none 100 none none none none none).1
      ≠ ResolveOutcome.expired := by decide

/-- Claim C2, amended. Among links the active-scoped lookup returns, a
past expiresAt resolves to Expired; a handle the lookup does not return
(in particular an expired link with active = false) resolves to
NotFound. -/
theorem resolve_expired_amended (db : DB) (sid : String) (pw : Option String) (now : Nat)
    (rip crm ua al ref : Option String) :
    (∀ u, findActiveByHandle db sid = some u → u.isExpired now = true →
        (resolve db sid pw now rip crm ua al ref).1 = ResolveOutcome.expired) ∧
    (findActiveByHandle db sid = none →
        (resolve db sid pw now rip crm ua al ref).1 = ResolveOutcome.notFound) := by
  constructor
  · intro u hu hexp
    simp [resolve, hu, hexp]
  · intro hn
    simp [resolve, hn]

/-- Witness for the amended C2 theorem at concrete inputs. -/
theorem resolve_expired_amended_witness :
    (resolve dbExpiredActive "expa" none 100 none none none none none).1
      = ResolveOutcome.expired ∧
    (resolve dbEmpty "zzz" none 100 none none none none none).1
      = ResolveOutcome.notFound :=
  ⟨(resolve_expired_amended dbExpiredActive "expa" none 100 none none none none none).1
      linkExpiredActive (by decide) (by decide),
   (resolve_expired_amended dbEmpty "zzz" none 100 none none none none none).2 (by decide)⟩

set_option maxRecDepth 100000 in
/-- Claim C7, counterexample. The claim says absent inputs are treated as
empty strings.  The address expression `req.ip || req.connection.remoteAddress`
has no empty-string fallback: with both address sources absent the
template literal renders "undefined", and the resulting key differs
from the key computed for an empty-string address. -/
theorem visitorId_absent_ip_not_empty_string :
    generateVisitorId none none none none
      ≠ generateVisitorId (some "") (some "") none none := by decide

/-- Claim C7, amended. generateVisitorId is a total function of its four
inputs (deterministic, never raises); an absent User-Agent or
Accept-Language header defaults to the empty string, while an address
absent from both sources is rendered as the literal string "undefined"
and still produces a key. -/
theorem generateVisitorId_amended (rip crm ua al : Option String) :
    generateVisitorId rip crm none al = generateVisitorId rip crm (some "") al ∧
    generateVisitorId rip crm ua none = generateVisitorId rip crm ua (some "") ∧
    generateVisitorId none none ua al = generateVisitorId (some "undefined") none ua al := by
  refine ⟨rfl, rfl, ?_⟩
  have h : jsStr (jsOrStr none none) = jsStr (jsOrStr (some "undefined") none) := by decide
  simp only [generateVisitorId]
  rw [h]

/-- Claim C8. For a fixed (linkId, visitorKey) pair and N handlers running
trackAnalytics concurrently from an initially unvisited state, every
complete interleaving ends with exactly one persisted VisitEvent, that
event flagged isUniqueForLink = true, and uniqueVisitors incremented
exactly once.  (The mechanism differs from the spec's separate
seen-visitor record: the unique index sits on the event collection
itself, so losing writers drop their event, but the claimed property
holds.) -/
theorem concurrent_visits_exactly_one_unique (N : Nat) (s : VState)
    (hN : 1 ≤ N)
    (htrace : Relation.ReflTransGen VisitStep ⟨[], 0, List.replicate N PC.start⟩ s)
    (hdone : ∀ p ∈ s.procs, p = PC.done) :
    s.events = [true] ∧ s.uniq = 1 := by
  have hinit : VInv ⟨[], 0, List.replicate N PC.start⟩ := by
    refine ⟨by simp, by simp, ?_, ?_⟩
    · show 0 + countToInc (List.replicate N PC.start) = 0
      rw [countToInc, List.countP_eq_zero.mpr]
      intro p hp
      rw [List.eq_of_mem_replicate hp]
      simp [isToInc]
    · intro _ p hp
      exact Or.inl (List.eq_of_mem_replicate hp)
  obtain ⟨h1, h2, h3, h5⟩ := vinv_trace htrace hinit
  have hlen : s.procs.length = N := by
    simpa using vtrace_procs_length htrace
  have hne : s.procs ≠ [] := by
    intro h
    rw [h] at hlen
    simp at hlen
    omega
  have hev : s.events ≠ [] := by
    intro he
    obtain ⟨p, hp⟩ := List.exists_mem_of_ne_nil s.procs hne
    have hd := hdone p hp
    rcases h5 he p hp with h' | h' <;> rw [hd] at h' <;> cases h'
  have hcnt : countToInc s.procs = 0 := by
    rw [countToInc, List.countP_eq_zero]
    intro p hp
    rw [hdone p hp]
    simp [isToInc]
  obtain ⟨b, hb⟩ : ∃ b, s.events = [b] := by
    cases hevv : s.events with
    | nil => exact absurd hevv hev
    | cons x xs =>
      cases xs with
      | nil => exact ⟨x, rfl⟩
      | cons y ys => rw [hevv] at h2; simp at h2
  have hbt : b = true := h1 b (by rw [hb]; simp)
  subst hbt
  refine ⟨hb, ?_⟩
  rw [hcnt] at h3
  rw [hb] at h3
  simpa using h3

/-- Witness for C8: the unique complete interleaving of a single
handler, driven through findOne, create, and the increment. -/
theorem concurrent_visits_exactly_one_unique_witness :
    (VState.mk [true] 1 [PC.done]).events = [true] ∧
    (VState.mk [true] 1 [PC.done]).uniq = 1 := by
  have t1 : VisitStep ⟨[], 0, [PC.start]⟩ ⟨[], 0, [PC.checked false]⟩ :=
    VisitStep.findOne [] 0 [] []
  have t2 : VisitStep ⟨[], 0, [PC.checked false]⟩ ⟨[true], 0, [PC.toInc]⟩ :=
    VisitStep.createOk 0 [] [] false
  have t3 : VisitStep ⟨[true], 0, [PC.toInc]⟩ ⟨[true], 1, [PC.done]⟩ :=
    VisitStep.incr [true] 0 [] []
  have htrace : Relation.ReflTransGen VisitStep ⟨[], 0, List.replicate 1 PC.start⟩
      ⟨[true], 1, [PC.done]⟩ :=
    Relation.ReflTransGen.tail
      (Relation.ReflTransGen.tail (Relation.ReflTransGen.tail Relation.ReflTransGen.refl t1) t2) t3
  exact concurrent_visits_exactly_one_unique 1 ⟨[true], 1, [PC.done]⟩ (by decide) htrace
    (by intro p hp; simpa using hp)

/-- Claim C5. The resolution gates fire in order with the claimed
outcomes: NotFound when the active-scoped lookup misses; Expired when
expiresAt is past; PasswordRequired carrying the link's public handle
when password-protected and no password was supplied; PasswordIncorrect
when the supplied password differs from the stored value; otherwise the
destination is returned. -/
theorem resolve_gate_order (db : DB) (sid : String) (pw : Option String) (now : Nat)
    (rip crm ua al ref : Option String) :
    (findActiveByHandle db sid = none →
        (resolve db sid pw now rip crm ua al ref).1 = ResolveOutcome.notFound) ∧
    (∀ u, findActiveByHandle db sid = some u →
      (u.isExpired now = true →
          (resolve db sid pw now rip crm ua al ref).1 = ResolveOutcome.expired) ∧
      (u.isExpired now = false → u.isPasswordProtected = true → jsTruthy pw = false →
          (resolve db sid pw now rip crm ua al ref).1
            = ResolveOutcome.passwordRequired u.shortUrl) ∧
      (u.isExpired now = false → u.isPasswordProtected = true → jsTruthy pw = true →
          pw ≠ u.password →
          (resolve db sid pw now rip crm ua al ref).1 = ResolveOutcome.passwordIncorrect) ∧
      (u.isExpired now = false →
          (u.isPasswordProtected = true → jsTruthy pw = true ∧ pw = u.password) →
          (resolve db sid pw now rip crm ua al ref).1
            = ResolveOutcome.redirect u.originalUrl)) := by
  constructor
  · intro hn
    simp [resolve, hn]
  · intro u hu
    refine ⟨?_, ?_, ?_, ?_⟩
    · intro hexp
      simp [resolve, hu, hexp]
    · intro hexp hprot hpw
      simp [resolve, hu, hexp, hprot, hpw]
    · intro hexp hprot hpw hne
      simp [resolve, hu, hexp, hprot, hpw, bne_iff_ne, hne]
    · intro hexp hsup
      by_cases hp : u.isPasswordProtected
      · obtain ⟨hj, hpw⟩ := hsup hp
        subst hpw
        simp [resolve, hu, hexp, hp, hj]
      · simp [resolve, hu, hexp, hp]

/-- Witness for C5: each of the five gate outcomes reached at a concrete
database and request. -/
theorem resolve_gate_order_witness :
    (resolve dbEmpty "zzz" none 0 none none none none none).1 = ResolveOutcome.notFound ∧
    (resolve dbExpiredActive "expa" none 100 none none none none none).1
      = ResolveOutcome.expired ∧
    (resolve dbProt "prot" none 0 none none none none none).1
      = ResolveOutcome.passwordRequired "prot" ∧
    (resolve dbProt "prot" (some "nope") 0 none none none none none).1
      = ResolveOutcome.passwordIncorrect ∧
    (resolve dbProt "prot" (some "pw") 0 none none none none none).1
      = ResolveOutcome.redirect "https://example.com/p" := by
  refine ⟨?_, ?_, ?_, ?_, ?_⟩
  · exact (resolve_gate_order dbEmpty "zzz" none 0 none none none none none).1 (by decide)
  · exact ((resolve_gate_order dbExpiredActive "expa" none 100 none none none none
      none).2 linkExpiredActive (by decide)).1 (by decide)
  · exact ((resolve_gate_order dbProt "prot" none 0 none none none none none).2
      linkProt (by decide)).2.1 (by decide) (by decide) (by decide)
  · exact ((resolve_gate_order dbProt "prot" (some "nope") 0 none none none none none).2
      linkProt (by decide)).2.2.1 (by decide) (by decide) (by decide) (by decide)
  · exact ((resolve_gate_order dbProt "prot" (some "pw") 0 none none none none none).2
      linkProt (by decide)).2.2.2 (by decide) (fun _ => ⟨by decide, by decide⟩)

/-- Claim C10. A resolution attempt that ends in a gate failure (NotFound,
Expired, PasswordRequired, PasswordIncorrect — and for the
verify-password route also its missing-password and not-protected
rejections) returns the database unchanged: no event is appended, no
counter is incremented, lastAccessed is untouched, because every
mutation sits after all gates in both routes. -/
theorem gate_failure_leaves_state_unchanged (db : DB) (sid : String) (pw : Option String)
    (now : Nat) (rip crm ua al ref : Option String) :
    (((resolve db sid pw now rip crm ua al ref).1 = ResolveOutcome.notFound ∨
      (resolve db sid pw now rip crm ua al ref).1 = ResolveOutcome.expired ∨
      (∃ h, (resolve db sid pw now rip crm ua al ref).1 = ResolveOutcome.passwordRequired h) ∨
      (resolve db sid pw now rip crm ua al ref).1 = ResolveOutcome.passwordIncorrect) →
        (resolve db sid pw now rip crm ua al ref).2 = db) ∧
    (((verifyPassword db sid pw now rip crm ua al ref).1 = VerifyOutcome.passwordMissing ∨
      (verifyPassword db sid pw now rip crm ua al ref).1 = VerifyOutcome.notFound ∨
      (verifyPassword db sid pw now rip crm ua al ref).1 = VerifyOutcome.expired ∨
      (verifyPassword db sid pw now rip crm ua al ref).1 = VerifyOutcome.notProtected ∨
      (verifyPassword db sid pw now rip crm ua al ref).1 = VerifyOutcome.passwordIncorrect) →
        (verifyPassword db sid pw now rip crm ua al ref).2 = db) := by
  constructor
  · intro hfail
    cases hfind : findActiveByHandle db sid with
    | none => simp [resolve, hfind]
    | some u =>
      by_cases hexp : u.isExpired now
      · simp [resolve, hfind, hexp]
      · by_cases hg1 : (u.isPasswordProtected && !jsTruthy pw) = true
        · simp [resolve, hfind, hexp, hg1]
        · by_cases hg2 : (u.isPasswordProtected && pw != u.password) = true
          · simp [resolve, hfind, hexp, hg1, hg2]
          · exfalso
            have hred : (resolve db sid pw now rip crm ua al ref).1
                = ResolveOutcome.redirect u.originalUrl := by
              simp [resolve, hfind, hexp, hg1, hg2]
            rcases hfail with h | h | ⟨x, h⟩ | h <;> rw [hred] at h <;> simp at h
  · intro hfail
    by_cases hmiss : (!jsTruthy pw) = true
    · simp [verifyPassword, hmiss]
    · cases hfind : findActiveByHandle db sid with
      | none => simp [verifyPassword, hmiss, hfind]
      | some u =>
        by_cases hexp : u.isExpired now
        · simp [verifyPassword, hmiss, hfind, hexp]
        · by_cases hg1 : (!u.isPasswordProtected) = true
          · simp [verifyPassword, hmiss, hfind, hexp, hg1]
          · by_cases hg2 : (pw != u.password) = true
            · simp [verifyPassword, hmiss, hfind, hexp, hg1, hg2]
            · exfalso
              have hsucc : (verifyPassword db sid pw now rip crm ua al ref).1
                  = VerifyOutcome.success u.originalUrl := by
                simp [verifyPassword, hmiss, hfind, hexp, hg1, hg2]
              rcases hfail with h | h | h | h | h <;> rw [hsucc] at h <;> simp at h

/-- Witness for C10: a failed lookup leaves the empty database intact,
and a wrong password on the verify route leaves dbProt intact. -/
theorem gate_failure_leaves_state_unchanged_witness :
    (resolve dbEmpty "zzz" none 0 none none none none none).2 = dbEmpty ∧
    (verifyPassword dbProt "prot" (some "nope") 0 none none none none none).2 = dbProt :=
  ⟨(gate_failure_leaves_state_unchanged dbEmpty "zzz" none 0 none none none none none).1
      (Or.inl (by decide)),
   (gate_failure_leaves_state_unchanged dbProt "prot" (some "nope") 0 none none none none
      none).2 (Or.inr (Or.inr (Or.inr (Or.inr (by decide)))))⟩

/-- Claim C4, counterexample. An update that clears passwordProtected
does not clear the stored password: updating the protected link with
isPasswordProtected = false and no password field leaves password
= some "pw" in the stored document, violating the claimed iff
invariant. -/
theorem update_clear_protection_keeps_password :
    (updateUrl dbProtOwned true 7 5 none none none (some false) none).2.urls.map
        (fun u => (u.isPasswordProtected, u.password)) = [(false, some "pw")] := by decide

/-- For a truthy alias the collision pre-check scans the combined
shortId-plus-customAlias namespace. -/
theorem aliasCollides_eq (db : DB) (a : String) (ha : a.isEmpty = false) :
    aliasCollides db (some a)
      = db.urls.any (fun u => u.customAlias == some a || u.shortId == a) := by
  unfold aliasCollides
  rw [show jsTruthy (some a) = true from by simp [jsTruthy, ha]]
  rfl

/-- Claim C4, amended. Creation preserves the invariant (the created
document stores a password iff protection was requested, and a
protection request without a password is rejected before the insert),
and an update that sets passwordProtected without supplying a password
fails with PasswordRequired; but an update that clears
passwordProtected leaves the stored password in place (see the
counterexample), so the invariant is not preserved by every update. -/
theorem password_invariant_create_and_guard :
    (∀ (db : DB) (uv : Bool) (ou : String) (ca : Option String) (ex : Option Nat)
        (ipp : Option Bool) (pw : Option String) (uid : Option Nat) (gs : String) (nid : Nat)
        (u : Url),
        (createUrl db uv ou ca ex ipp pw uid gs nid).1 = CreateOutcome.created u →
        (u.isPasswordProtected = true ↔ u.password ≠ none)) ∧
    (∀ (db : DB) (ov : Bool) (ruid id : Nat) (ou : Option String) (ex : Option Nat)
        (pw : Option String) (u : Url),
        jsTruthy pw = false →
        updateValidationOk ov none pw = true →
        db.urls.find? (fun v => v.id == id && v.userId == some ruid) = some u →
        (updateUrl db ov ruid id ou none ex (some true) pw).1
          = UpdateOutcome.passwordRequired) := by
  constructor
  · intro db uv ou ca ex ipp pw uid gs nid u hcreate
    simp only [createUrl] at hcreate
    split_ifs at hcreate with hv hali hg hs hipp
    · simp at hcreate
      subst hcreate
      have hjt : jsTruthy pw = true := by
        cases hb : jsTruthy pw
        · exact absurd (by simp [hipp, hb]) hg
        · rfl
      have hpne : pw ≠ none := by
        intro h
        rw [h] at hjt
        simp [jsTruthy] at hjt
      simp [hipp, hpne]
    · have hipp' : (ipp == some true) = false := by
        cases hb : (ipp == some true)
        · rfl
        · exact absurd hb hipp
      simp at hcreate
      subst hcreate
      simp [hipp']
  · intro db ov ruid id ou ex pw u hpw hval hfind
    have hnone : jsTruthy none = false := rfl
    simp [updateUrl, hval, hfind, hpw, hnone]

/-- The document created for a protected link in the C4 witness
scenario. -/
def uC4 : Url :=
  { id := 10, originalUrl := "https://x", shortId := "gen1", customAlias := none,
    userId := none, isPasswordProtected := true, password := some "s", expiresAt := none,
    isActive := true, clicks := 0, uniqueVisitors := 0, lastAccessed := none }

/-- Witness for the amended C4 theorem: a concrete protected creation
satisfies the invariant, and a concrete protecting update without a
password is rejected. -/
theorem password_invariant_create_and_guard_witness :
    (uC4.isPasswordProtected = true ↔ uC4.password ≠ none) ∧
    (updateUrl dbProtOwned true 7 5 none none none (some true) none).1
      = UpdateOutcome.passwordRequired :=
  ⟨password_invariant_create_and_guard.1 dbEmpty true "https://x" none none (some true)
      (some "s") none "gen1" 10 uC4 (by decide),
   password_invariant_create_and_guard.2 dbProtOwned true 7 5 none none none linkProtOwned
      (by decide) (by decide) (by decide)⟩

/-- Claim C6. With validation passing and the password guard satisfied,
creating a link with an alias fails with AliasTaken exactly when the
alias already occurs as a shortId or customAlias of a stored link; with
no collision (and a generated shortId that respects its own unique
index) the creation succeeds and appends the new document. -/
theorem create_aliasTaken_iff_collision (db : DB) (ou a gs : String) (ex : Option Nat)
    (ipp : Option Bool) (pw : Option String) (uid : Option Nat) (nid : Nat)
    (hval : createValidationOk true (some a) pw = true)
    (hguard : ipp = some true → jsTruthy pw = true) :
    ((createUrl db true ou (some a) ex ipp pw uid gs nid).1 = CreateOutcome.aliasTaken
        ↔ db.urls.any (fun u => u.customAlias == some a || u.shortId == a) = true) ∧
    (db.urls.any (fun u => u.customAlias == some a || u.shortId == a) = false →
     (db.urls.any fun u => u.shortId == gs) = false →
     ∃ newUrl, createUrl db true ou (some a) ex ipp pw uid gs nid
        = (CreateOutcome.created newUrl, { db with urls := db.urls ++ [newUrl] })) := by
  have hvalid : isValidAlias a = true := by
    simp only [createValidationOk, Bool.true_and, Bool.and_eq_true] at hval
    exact hval.1
  have ha : a.isEmpty = false := by
    simp only [isValidAlias, Bool.and_eq_true, Bool.not_eq_true'] at hvalid
    exact hvalid.1
  have hguardB : (ipp == some true && !jsTruthy pw) = false := by
    by_cases hipp : ipp = some true
    · simp [hipp, hguard hipp]
    · have hne : (ipp == some true) = false := by
        simpa using hipp
      simp [hne]
  have hcol := aliasCollides_eq db a ha
  constructor
  · constructor
    · intro hout
      by_contra hcc
      have hc : db.urls.any (fun u => u.customAlias == some a || u.shortId == a) = false := by
        cases hb : db.urls.any (fun u => u.customAlias == some a || u.shortId == a)
        · rfl
        · exact absurd hb hcc
      cases hfresh : (db.urls.any fun u => u.shortId == gs) with
      | true => simp [createUrl, hval, hcol, hc, hguardB, hfresh] at hout
      | false => simp [createUrl, hval, hcol, hc, hguardB, hfresh] at hout
    · intro hcc
      simp [createUrl, hval, hcol, hcc]
  · intro hc hfresh
    refine ⟨{ id := nid, originalUrl := ou, shortId := gs, customAlias := some a,
              userId := uid, isPasswordProtected := (ipp == some true),
              password := (if (ipp == some true) = true then pw else none),
              expiresAt := ex, isActive := true, clicks := 0, uniqueVisitors := 0,
              lastAccessed := none }, ?_⟩
    simp [createUrl, hval, hcol, hc, hguardB, hfresh]

/-- A stored link whose shortId occupies the handle "taken". -/
def linkTaken : Url :=
  { id := 6, originalUrl := "https://t", shortId := "taken", customAlias := none,
    userId := none, isPasswordProtected := false, password := none, expiresAt := none,
    isActive := true, clicks := 0, uniqueVisitors := 0, lastAccessed := none }

def dbTaken : DB := { urls := [linkTaken], analytics := [] }

/-- Witness for C6: the alias "taken" collides with an existing shortId
and is rejected, while the alias "fresh" is accepted and the link is
created. -/
theorem create_aliasTaken_iff_collision_witness :
    (createUrl dbTaken true "https://x" (some "taken") none none none none "g7" 11).1
      = CreateOutcome.aliasTaken ∧
    (∃ newUrl, createUrl dbTaken true "https://x" (some "fresh") none none none none "g7" 11
      = (CreateOutcome.created newUrl, { dbTaken with urls := dbTaken.urls ++ [newUrl] })) :=
  ⟨(create_aliasTaken_iff_collision dbTaken "https://x" "taken" "g7" none none none none 11
      (by decide) (fun h => nomatch h)).1.mpr (by decide),
   (create_aliasTaken_iff_collision dbTaken "https://x" "fresh" "g7" none none none none 11
      (by decide) (fun h => nomatch h)).2 (by decide) (by decide)⟩

/-- A timestamp lies between startOf('day') and endOf('day') of the
instant `c` exactly when it falls on the same calendar day as `c`. -/
theorem day_filter_pointwise (t c : Nat) :
    (decide (c / oneDay * oneDay ≤ t) && decide (t ≤ c / oneDay * oneDay + (oneDay - 1)))
      = (t / oneDay == c / oneDay) := by
  have hb : (t / oneDay == c / oneDay) = decide (t / oneDay = c / oneDay) := by
    cases hb : t / oneDay == c / oneDay
    · simp [ne_of_beq_false hb]
    · simp [eq_of_beq hb]
  rw [hb, ← Bool.decide_and, decide_eq_decide]
  simp only [oneDay]
  omega

/-- The bucket of an instant counts exactly the events of its calendar
day, and the unique count exactly the unique events of that day. -/
theorem dayBucket_counts (analytics : List AnalyticsEvent) (c : Nat) :
    (dayBucket analytics c).clicks
        = (analytics.filter (fun a => dayOf a.timestamp == dayOf c)).length ∧
    (dayBucket analytics c).uniqueVisitors
        = (analytics.filter (fun a =>
            (dayOf a.timestamp == dayOf c) && a.isUnique)).length := by
  have hfil : analytics.filter (fun a => decide (c / oneDay * oneDay ≤ a.timestamp)
        && decide (a.timestamp ≤ c / oneDay * oneDay + (oneDay - 1)))
      = analytics.filter (fun a => dayOf a.timestamp == dayOf c) := by
    apply List.filter_congr
    intro a _
    exact day_filter_pointwise a.timestamp c
  constructor
  · show (analytics.filter _).length = _
    rw [hfil]
  · show ((analytics.filter _).filter (fun a => a.isUnique)).length = _
    rw [hfil, List.filter_filter]
    apply congrArg List.length
    apply List.filter_congr
    intro a _
    exact Bool.and_comm _ _

/-- Unrolling of the processTimeSeriesData loop over a window that is a
whole number of days: one bucket per day offset 0..m. -/
theorem tsLoop_exact (analytics : List AnalyticsEvent) :
    ∀ (m s : Nat), tsLoop analytics (s + m * oneDay) s
      = (List.range (m + 1)).map (fun i => dayBucket analytics (s + i * oneDay)) := by
  intro m
  induction m with
  | zero =>
    intro s
    rw [tsLoop, if_pos (by omega)]
    rw [tsLoop, if_neg (by simp only [oneDay]; omega)]
    rfl
  | succ m ih =>
    intro s
    rw [tsLoop, if_pos (by simp only [oneDay]; omega)]
    have harg : s + (m + 1) * oneDay = (s + oneDay) + m * oneDay := by ring
    rw [harg, ih (s + oneDay)]
    conv_rhs => rw [List.range_succ_eq_map]
    simp only [List.map_cons, List.map_map]
    congr 1
    simp only [List.map_inj_left, Function.comp_apply, List.mem_range]
    intro i hi
    congr 1
    simp only [Nat.succ_eq_add_one]
    ring

/-- Claim C9. For the period windows the routes build (endDate = startDate
plus a whole number m of days: 1, 7, 30 or 90), the time series has one
bucket per calendar day, labelled with the consecutive days from the
window's first day to its last day inclusive — so days with no events
still appear, with both counts equal to the length of an empty filter —
and every bucket counts the passed-in events (and the unique events)
whose timestamp falls on that bucket's day. -/
theorem timeSeries_dense_daily (analytics : List AnalyticsEvent) (s m : Nat) :
    ((processTimeSeriesData analytics s (s + m * oneDay)).map Bucket.date
        = (List.range (m + 1)).map (fun i => dayOf s + i)) ∧
    (∀ b ∈ processTimeSeriesData analytics s (s + m * oneDay),
        b.clicks = (analytics.filter (fun a => dayOf a.timestamp == b.date)).length ∧
        b.uniqueVisitors
          = (analytics.filter (fun a =>
              (dayOf a.timestamp == b.date) && a.isUnique)).length) := by
  have hex := tsLoop_exact analytics m s
  constructor
  · rw [processTimeSeriesData, hex, List.map_map]
    apply List.map_congr_left
    intro i _
    show dayOf (s + i * oneDay) = dayOf s + i
    simp only [dayOf]
    rw [Nat.add_mul_div_right _ _ (by simp [oneDay] : 0 < oneDay)]
  · intro b hb
    rw [processTimeSeriesData, hex] at hb
    obtain ⟨i, hi, rfl⟩ := List.mem_map.mp hb
    exact dayBucket_counts analytics (s + i * oneDay)

/-- A single event on the first day of a two-day window. -/
def tsEv : AnalyticsEvent :=
  { urlId := 1, visitorId := "v", ipAddress := "1.2.3.4", userAgent := "UA",
    referrer := none, timestamp := 5, isUnique := true }

/-- Witness for C9 on a concrete one-day window containing one event:
the date labels and the counts of the first bucket. -/
theorem timeSeries_dense_daily_witness :
    ((processTimeSeriesData [tsEv] 0 (0 + 1 * oneDay)).map Bucket.date
        = (List.range 2).map (fun i => dayOf 0 + i)) ∧
    ((dayBucket [tsEv] 0).clicks
        = ([tsEv].filter (fun a => dayOf a.timestamp == (dayBucket [tsEv] 0).date)).length ∧
     (dayBucket [tsEv] 0).uniqueVisitors
        = ([tsEv].filter (fun a => (dayOf a.timestamp == (dayBucket [tsEv] 0).date)
            && a.isUnique)).length) := by
  have hmem : dayBucket [tsEv] 0 ∈ processTimeSeriesData [tsEv] 0 (0 + 1 * oneDay) := by
    rw [processTimeSeriesData, tsLoop_exact [tsEv] 1 0]
    refine List.mem_map.mpr ⟨0, by simp, ?_⟩
    norm_num
  exact ⟨(timeSeries_dense_daily [tsEv] 0 1).1,
    (timeSeries_dense_daily [tsEv] 0 1).2 (dayBucket [tsEv] 0) hmem⟩
